/-
Verification of the dynamixel servo register-access engine (servo.go).

The embedding translates servo.go into pure Lean functions. The external
Transport (the Networker interface) is modelled by passing the outcome of
the single transport call an operation can make as an explicit argument,
and every operation additionally returns the list of transport calls it
issued, so that claims of the form "makes no transport call" or "issues
exactly one read" are statable. The Log sink is a best-effort diagnostic
(spec section 6) that never affects outcomes, so it is not tracked.
Go byte and int values are modelled as Nat and Int; the Go float64 angles
are modelled with exact rational arithmetic.
-/
import Mathlib

namespace Dynamixel

/-- An opaque transport-layer failure, propagated verbatim. The payload
distinguishes different failures. -/
inductive TransportError where
  | mk : Nat → TransportError
deriving DecidableEq

/-- One call made to the Networker (transport) by an operation: a ReadData,
a WriteData (with its expect-acknowledgement flag), or a Ping. -/
inductive TransportEvent where
  | readData (ident : Nat) (addr : Nat) (len : Nat)
  | writeData (ident : Nat) (expectAck : Bool) (params : List Nat)
  | ping (ident : Nat)
deriving DecidableEq

/-- The distinct error results of servo.go, one constructor per error site. -/
inductive Err where
  | invalidRegisterLength (len : Nat)
  | statusReturnLevelZero
  | transport (e : TransportError)
  | byteCountMismatch (expected : Nat) (got : Nat)
  | readOnlyRegister
  | valueTooLow (value : Int) (min : Int)
  | valueTooHigh (value : Int) (max : Int)
  | invalidControlTableSize (got : Nat)
  | invalidStatusReturnLevel (value : Int)
  | torqueLimitOutOfRange
deriving DecidableEq

/-- Modelled from the spec: the access mode of a register descriptor,
ReadOnly or ReadWrite (the ro constant compared by setRegister). -/
inductive Access where
  | ro
  | rw
deriving DecidableEq

/-- Modelled from the spec: a RegisterDescriptor (the Register struct, whose
declaration is outside servo.go) with the fields servo.go reads: address,
width, access mode, inclusive legal range, cacheability. -/
structure Register where
  address : Nat
  length : Nat
  access : Access
  min : Int
  max : Int
  cacheable : Bool

-- Control table size (in bytes), from servo.go.
def tableSize : Nat := 50

-- Control table addresses used by the claims, from servo.go.
def addrStatusReturnLevel : Nat := 0x10
def addrTorqueLimit : Nat := 0x22

/-- Modelled from the spec: the low byte-splitting helper (declared outside
servo.go): the low byte of a Go int, i.e. the value modulo 256. -/
def low (v : Int) : Nat := (v % 256).toNat

/-- Modelled from the spec: the high byte-splitting helper (declared outside
servo.go): the second-lowest byte of a Go int. -/
def high (v : Int) : Nat := ((v / 256) % 256).toNat

/-- The DynamixelServo struct: identity, zero-angle offset, control table
cache (a byte buffer, modelled as a total map from address to byte), and the
status-return-level shadow. -/
structure DynamixelServo where
  ident : Nat
  zeroAngle : ℚ
  cache : Nat → Nat
  statusReturnLevel : Int

/-- servo.writeData: forwards to Network.WriteData with the ack flag taken
from the current status-return-level shadow. Returns the propagated result
and the single transport call made. -/
def writeData (servo : DynamixelServo) (writeResp : Except TransportError Unit)
    (params : List Nat) : Except Err Unit × List TransportEvent :=
  (match writeResp with
    | .ok _ => .ok ()
    | .error e => .error (.transport e),
   [.writeData servo.ident (decide (servo.statusReturnLevel = 2)) params])

/-- servo.updateCache: one bulk read of the whole control table; on a
transport error or a size mismatch the cache is left unmodified. -/
def updateCache (servo : DynamixelServo) (readResp : Except TransportError (List Nat)) :
    Except Err Unit × DynamixelServo × List TransportEvent :=
  match readResp with
  | .error e => (.error (.transport e), servo, [.readData servo.ident 0 tableSize])
  | .ok b =>
    if b.length ≠ tableSize then
      (.error (.invalidControlTableSize b.length), servo, [.readData servo.ident 0 tableSize])
    else
      (.ok (), { servo with cache := fun i => if i < tableSize then b.getD i 0 else servo.cache i },
       [.readData servo.ident 0 tableSize])

/-- NewServo: builds the handle with zeroAngle 150 and statusReturnLevel 2
(the Go struct literal; the cache array is zero-initialized by Go), then
calls updateCache and discards its result. No error is returned. -/
def NewServo (ident : Nat) (readResp : Except TransportError (List Nat)) :
    DynamixelServo × List TransportEvent :=
  let s : DynamixelServo :=
    { ident := ident, zeroAngle := 150, cache := fun _ => 0, statusReturnLevel := 2 }
  let r := updateCache s readResp
  (r.2.1, r.2.2)

/-- servo.getRegister: length check, then either serve from the cache
(cacheable) or gate on the status-return-level shadow and do one live read,
switching on the length of the returned slice. -/
def getRegister (servo : DynamixelServo) (reg : Register)
    (readResp : Except TransportError (List Nat)) :
    Except Err Nat × DynamixelServo × List TransportEvent :=
  if reg.length ≠ 1 ∧ reg.length ≠ 2 then
    (.error (.invalidRegisterLength reg.length), servo, [])
  else if reg.cacheable then
    let v := servo.cache reg.address
    let v := if reg.length = 2 then v ||| servo.cache (reg.address + 1) <<< 8 else v
    (.ok v, servo, [])
  else if servo.statusReturnLevel = 0 then
    (.error .statusReturnLevelZero, servo, [])
  else
    match readResp with
    | .error e => (.error (.transport e), servo, [.readData servo.ident reg.address reg.length])
    | .ok b =>
      match b with
      | [b0] =>
        (.ok b0,
         { servo with cache := fun i => if i = reg.address then b0 else servo.cache i },
         [.readData servo.ident reg.address reg.length])
      | [b0, b1] =>
        (.ok (b0 ||| b1 <<< 8),
         { servo with cache := fun i =>
             if i = reg.address then b0
             else if i = reg.address + 1 then b1
             else servo.cache i },
         [.readData servo.ident reg.address reg.length])
      | _ =>
        (.error (.byteCountMismatch reg.length b.length), servo,
         [.readData servo.ident reg.address reg.length])

/-- servo.setRegister: access and range checks, then a switch on the register
length. Note that in both write branches the result of writeData is
discarded by the Go code (the statement ignores the returned error), the
cache is patched, and nil is returned. -/
def setRegister (servo : DynamixelServo) (reg : Register) (value : Int)
    (writeResp : Except TransportError Unit) :
    Except Err Unit × DynamixelServo × List TransportEvent :=
  if reg.access = Access.ro then
    (.error .readOnlyRegister, servo, [])
  else if value < reg.min then
    (.error (.valueTooLow value reg.min), servo, [])
  else if value > reg.max then
    (.error (.valueTooHigh value reg.max), servo, [])
  else if reg.length = 1 then
    let w := writeData servo writeResp [reg.address, low value]
    (.ok (),
     { servo with cache := fun i => if i = reg.address then low value else servo.cache i },
     w.2)
  else if reg.length = 2 then
    let w := writeData servo writeResp [reg.address, low value, high value]
    (.ok (),
     { servo with cache := fun i =>
         if i = reg.address then low value
         else if i = reg.address + 1 then high value
         else servo.cache i },
     w.2)
  else
    (.error (.invalidRegisterLength reg.length), servo, [])

/-- servo.SetTorqueLimit: range check, then a direct writeData call whose
result is returned. The cache is not touched. -/
def SetTorqueLimit (servo : DynamixelServo) (limit : Int)
    (writeResp : Except TransportError Unit) :
    Except Err Unit × DynamixelServo × List TransportEvent :=
  if limit < 0 ∨ limit > 1023 then
    (.error .torqueLimitOutOfRange, servo, [])
  else
    let w := writeData servo writeResp [addrTorqueLimit, low limit, high limit]
    (w.1, servo, w.2)

/-- servo.SetStatusReturnLevel: validates the level, then calls
Network.WriteData directly with the acknowledgement flag derived from the
new value, and updates the shadow only after transport success. -/
def SetStatusReturnLevel (servo : DynamixelServo) (value : Int)
    (writeResp : Except TransportError Unit) :
    Except Err Unit × DynamixelServo × List TransportEvent :=
  if value < 0 ∨ value > 2 then
    (.error (.invalidStatusReturnLevel value), servo, [])
  else
    match writeResp with
    | .error e =>
      (.error (.transport e), servo,
       [.writeData servo.ident (decide (value = 2)) [addrStatusReturnLevel, low value]])
    | .ok _ =>
      (.ok (), { servo with statusReturnLevel := value },
       [.writeData servo.ident (decide (value = 2)) [addrStatusReturnLevel, low value]])

/-- normalizeAngle: recursively folds the angle by 360 while it is outside
[-180, 180]. Modelled with exact rational arithmetic. -/
def normalizeAngle (d : ℚ) : ℚ :=
  if h1 : d > 180 then normalizeAngle (d - 360)
  else if h2 : d < -180 then normalizeAngle (d + 360)
  else d
termination_by (Int.ceil |d|).toNat
decreasing_by
· rcases le_or_lt d 360 with hle | hgt
  · have c1 : Int.ceil |d - 360| ≤ 180 := by
      rw [abs_of_nonpos (by linarith)]
      rw [Int.ceil_le]
      push_cast
      linarith
    have c2 : (180 : ℤ) < Int.ceil |d| := by
      rw [abs_of_pos (by linarith)]
      rw [Int.lt_ceil]
      push_cast
      linarith
    omega
  · have c1 : Int.ceil |d - 360| = Int.ceil |d| - 360 := by
      rw [abs_of_pos (by linarith), abs_of_pos (by linarith : (0:ℚ) < d)]
      rw [show d - 360 = d + ((-360 : ℤ) : ℚ) by push_cast; ring]
      rw [Int.ceil_add_int]
      omega
    have c2 : (180 : ℤ) < Int.ceil |d| := by
      rw [abs_of_pos (by linarith : (0:ℚ) < d)]
      rw [Int.lt_ceil]
      push_cast
      linarith
    omega
· rcases le_or_lt (-360) d with hge | hlt
  · have c1 : Int.ceil |d + 360| ≤ 180 := by
      rw [abs_of_nonneg (by linarith)]
      rw [Int.ceil_le]
      push_cast
      linarith
    have c2 : (180 : ℤ) < Int.ceil |d| := by
      rw [abs_of_neg (by linarith)]
      rw [Int.lt_ceil]
      push_cast
      linarith
    omega
  · have c1 : Int.ceil |d + 360| = Int.ceil |d| - 360 := by
      rw [abs_of_neg (by linarith), abs_of_neg (by linarith : d < 0)]
      rw [show -(d + 360) = -d + ((-360 : ℤ) : ℚ) by push_cast; ring]
      rw [Int.ceil_add_int]
      omega
    have c2 : (180 : ℤ) < Int.ceil |d| := by
      rw [abs_of_neg (by linarith : d < 0)]
      rw [Int.lt_ceil]
      push_cast
      linarith
    omega

/-- A fuel-indexed unrolling of the normalizeAngle recursion, used to state
that the recursion reaches its answer in finitely many folds. -/
def normalizeAngleSteps : Nat → ℚ → Option ℚ
  | 0, _ => none
  | fuel + 1, d =>
    if d > 180 then normalizeAngleSteps fuel (d - 360)
    else if d < -180 then normalizeAngleSteps fuel (d + 360)
    else some d

/-- On an in-range input the recursion returns it unchanged. -/
theorem normalizeAngle_fixed {d : ℚ} (h1 : -180 ≤ d) (h2 : d ≤ 180) :
    normalizeAngle d = d := by
  rw [normalizeAngle]
  rw [dif_neg (not_lt.mpr h2), dif_neg (not_lt.mpr h1)]

/-- The result of normalizeAngle always lies in the closed interval
[-180, 180]. -/
theorem normalizeAngle_range (d : ℚ) :
    -180 ≤ normalizeAngle d ∧ normalizeAngle d ≤ 180 := by
  induction d using normalizeAngle.induct with
  | case1 d h ih =>
    rw [normalizeAngle, dif_pos h]
    exact ih
  | case2 d h1 h2 ih =>
    rw [normalizeAngle, dif_neg h1, dif_pos h2]
    exact ih
  | case3 d h1 h2 =>
    rw [normalizeAngle, dif_neg h1, dif_neg h2]
    exact ⟨le_of_not_lt h2, le_of_not_lt h1⟩

/-- normalizeAngle is idempotent. -/
theorem normalizeAngle_idem (d : ℚ) :
    normalizeAngle (normalizeAngle d) = normalizeAngle d :=
  normalizeAngle_fixed (normalizeAngle_range d).1 (normalizeAngle_range d).2

/-- Bitwise or of a byte with a value shifted left by 8 is little-endian
addition. -/
theorem lor_shiftLeft_eq_add {b0 b1 : Nat} (h : b0 < 2 ^ 8) :
    b0 ||| b1 <<< 8 = b0 + 2 ^ 8 * b1 := by
  rw [Nat.shiftLeft_eq, Nat.mul_comm b1 (2 ^ 8), Nat.lor_comm,
    ← Nat.mul_add_lt_is_or h b1]
  omega

/-! Concrete fixtures used as inputs of counterexamples and witnesses: a
freshly built servo state with an all-zero cache, and sample register
descriptors (one writable cacheable byte register, one writable cacheable
two-byte register, one read-only non-cacheable two-byte register). -/

def zeroCacheServo : DynamixelServo :=
  { ident := 1, zeroAngle := 150, cache := fun _ => 0, statusReturnLevel := 2 }

def level0Servo : DynamixelServo :=
  { zeroCacheServo with statusReturnLevel := 0 }

def byteReg : Register :=
  { address := 25, length := 1, access := Access.rw, min := 0, max := 1, cacheable := true }

def wordReg : Register :=
  { address := 30, length := 2, access := Access.rw, min := 0, max := 1023, cacheable := true }

def liveReg : Register :=
  { address := 36, length := 2, access := Access.ro, min := 0, max := 1023, cacheable := false }

/-- C1: setRegister does not propagate a transport write failure and does not
leave the cache unchanged. Evaluated at a writable one-byte register with an
in-range value and a failing transport write: setRegister still issues the
write, returns ok, and patches the cache byte. -/
theorem setRegister_write_failure_not_propagated :
    (setRegister zeroCacheServo byteReg 1 (Except.error (TransportError.mk 7))).1 =
      Except.ok () ∧
    (setRegister zeroCacheServo byteReg 1 (Except.error (TransportError.mk 7))).2.1.cache 25 = 1 ∧
    zeroCacheServo.cache 25 = 0 ∧
    (setRegister zeroCacheServo byteReg 1 (Except.error (TransportError.mk 7))).2.2 =
      [TransportEvent.writeData 1 true [25, 1]] := by
  exact ⟨rfl, rfl, rfl, rfl⟩

/-- C2 counterexample: SetTorqueLimit succeeds (transport ok) but the cache
bytes covering the torque-limit register keep their old value 0, while the
little-endian encoding of the written value 1 has low byte 1. -/
theorem setTorqueLimit_success_leaves_cache_stale :
    (SetTorqueLimit zeroCacheServo 1 (Except.ok ())).1 = Except.ok () ∧
    (SetTorqueLimit zeroCacheServo 1 (Except.ok ())).2.1.cache addrTorqueLimit = 0 ∧
    (SetTorqueLimit zeroCacheServo 1 (Except.ok ())).2.1.cache (addrTorqueLimit + 1) = 0 ∧
    low 1 = 1 := by
  exact ⟨rfl, rfl, rfl, rfl⟩

/-- C2 amended: a successful setRegister patches the cache bytes covering the
register to the little-endian encoding of the written value and leaves every
other cache byte unchanged; SetTorqueLimit, however, bypasses setRegister and
never modifies the cache. -/
theorem setRegister_ok_syncs_cache_setTorqueLimit_does_not :
    (∀ (servo : DynamixelServo) (reg : Register) (value : Int)
       (resp : Except TransportError Unit),
      (setRegister servo reg value resp).1 = Except.ok () →
      ((reg.length = 1 →
         (setRegister servo reg value resp).2.1.cache reg.address = low value ∧
         ∀ i, i ≠ reg.address →
           (setRegister servo reg value resp).2.1.cache i = servo.cache i) ∧
       (reg.length = 2 →
         (setRegister servo reg value resp).2.1.cache reg.address = low value ∧
         (setRegister servo reg value resp).2.1.cache (reg.address + 1) = high value ∧
         ∀ i, i ≠ reg.address → i ≠ reg.address + 1 →
           (setRegister servo reg value resp).2.1.cache i = servo.cache i))) ∧
    (∀ (servo : DynamixelServo) (limit : Int) (resp : Except TransportError Unit),
      (SetTorqueLimit servo limit resp).2.1.cache = servo.cache) := by
  constructor
  · intro servo reg value resp h
    by_cases hro : reg.access = Access.ro
    · simp [setRegister, hro] at h
    by_cases hlo : value < reg.min
    · simp [setRegister, hro, hlo] at h
    by_cases hhi : value > reg.max
    · simp [setRegister, hro, hlo, hhi] at h
    by_cases h1 : reg.length = 1
    · constructor
      · intro _
        constructor
        · simp [setRegister, hro, hlo, hhi, h1]
        · intro i hi
          simp [setRegister, hro, hlo, hhi, h1, hi]
      · intro h2
        omega
    by_cases h2 : reg.length = 2
    · constructor
      · intro h1c
        omega
      · intro _
        refine ⟨?_, ?_, ?_⟩
        · simp [setRegister, hro, hlo, hhi, h1, h2]
        · simp [setRegister, hro, hlo, hhi, h1, h2]
        · intro i hi hi2
          simp [setRegister, hro, hlo, hhi, h1, h2, hi, hi2]
    · simp [setRegister, hro, hlo, hhi, h1, h2] at h
  · intro servo limit resp
    simp only [SetTorqueLimit]
    split_ifs
    · rfl
    · rfl

/-- C2 witness: instantiating the amended theorem at a concrete two-byte
write (value 513, low byte 1, high byte 2) and a concrete SetTorqueLimit
call. -/
theorem setRegister_ok_syncs_cache_setTorqueLimit_does_not_witness :
    (setRegister zeroCacheServo wordReg 513 (Except.ok ())).2.1.cache wordReg.address =
      low 513 ∧
    (setRegister zeroCacheServo wordReg 513 (Except.ok ())).2.1.cache (wordReg.address + 1) =
      high 513 ∧
    (SetTorqueLimit zeroCacheServo 900 (Except.ok ())).2.1.cache = zeroCacheServo.cache := by
  have h := setRegister_ok_syncs_cache_setTorqueLimit_does_not
  have h2 := (h.1 zeroCacheServo wordReg 513 (Except.ok ()) rfl).2 rfl
  exact ⟨h2.1, h2.2.1, h.2 zeroCacheServo 900 (Except.ok ())⟩

/-- C3 counterexample: a non-cacheable two-byte register, status level 2, and
a successful transport read returning one byte (length differs from the
width 2): getRegister does not fail, it returns the decoded byte and patches
the cache. -/
theorem getRegister_short_read_accepted :
    liveReg.length = 2 ∧
    (getRegister zeroCacheServo liveReg (Except.ok [7])).1 = Except.ok 7 ∧
    (getRegister zeroCacheServo liveReg (Except.ok [7])).2.1.cache 36 = 7 := by
  exact ⟨rfl, rfl, rfl⟩

/-- C3 amended: with a non-cacheable register of width 1 or 2 and a positive
status-return-level shadow, a successful transport read raises the
byte-count-mismatch error and leaves the state unchanged exactly when the
returned length is neither 1 nor 2; every returned slice of length 1 or 2 is
accepted even when its length differs from the width: its bytes are decoded
and returned, the cache bytes they cover are patched, and all other cache
bytes are unchanged. -/
theorem getRegister_mismatch_only_non_byte_lengths
    (servo : DynamixelServo) (reg : Register) (b : List Nat)
    (hc : reg.cacheable = false) (hw : reg.length = 1 ∨ reg.length = 2)
    (hs : 0 < servo.statusReturnLevel) :
    (b.length ≠ 1 → b.length ≠ 2 →
       getRegister servo reg (Except.ok b) =
         (Except.error (Err.byteCountMismatch reg.length b.length), servo,
          [TransportEvent.readData servo.ident reg.address reg.length])) ∧
    (∀ b0, b = [b0] →
       (getRegister servo reg (Except.ok b)).1 = Except.ok b0 ∧
       (getRegister servo reg (Except.ok b)).2.1.cache reg.address = b0 ∧
       (∀ i, i ≠ reg.address →
          (getRegister servo reg (Except.ok b)).2.1.cache i = servo.cache i) ∧
       (getRegister servo reg (Except.ok b)).2.2 =
         [TransportEvent.readData servo.ident reg.address reg.length]) ∧
    (∀ b0 b1, b = [b0, b1] →
       (getRegister servo reg (Except.ok b)).1 = Except.ok (b0 ||| b1 <<< 8) ∧
       (getRegister servo reg (Except.ok b)).2.1.cache reg.address = b0 ∧
       (getRegister servo reg (Except.ok b)).2.1.cache (reg.address + 1) = b1 ∧
       (∀ i, i ≠ reg.address → i ≠ reg.address + 1 →
          (getRegister servo reg (Except.ok b)).2.1.cache i = servo.cache i) ∧
       (getRegister servo reg (Except.ok b)).2.2 =
         [TransportEvent.readData servo.ident reg.address reg.length]) := by
  have hlen : ¬(reg.length ≠ 1 ∧ reg.length ≠ 2) := by
    rcases hw with h | h <;> simp [h]
  have hs0 : ¬(servo.statusReturnLevel = 0) := by omega
  refine ⟨?_, ?_, ?_⟩
  · intro hb1 hb2
    rcases b with _ | ⟨b0, _ | ⟨b1, _ | ⟨b2, rest⟩⟩⟩
    · simp [getRegister, hlen, hc, hs0]
    · exact absurd rfl hb1
    · exact absurd rfl hb2
    · simp [getRegister, hlen, hc, hs0]
  · intro b0 hb
    subst hb
    refine ⟨?_, ?_, ?_, ?_⟩
    · simp [getRegister, hlen, hc, hs0]
    · simp [getRegister, hlen, hc, hs0]
    · intro i hi
      simp [getRegister, hlen, hc, hs0, hi]
    · simp [getRegister, hlen, hc, hs0]
  · intro b0 b1 hb
    subst hb
    refine ⟨?_, ?_, ?_, ?_, ?_⟩
    · simp [getRegister, hlen, hc, hs0]
    · simp [getRegister, hlen, hc, hs0]
    · simp [getRegister, hlen, hc, hs0]
    · intro i hi hi2
      simp [getRegister, hlen, hc, hs0, hi, hi2]
    · simp [getRegister, hlen, hc, hs0]

/-- C3 witness: the amended theorem at a concrete empty read result (the
mismatch direction) and at a concrete one-byte reply to the two-byte
register (the acceptance direction). -/
theorem getRegister_mismatch_only_non_byte_lengths_witness :
    getRegister zeroCacheServo liveReg (Except.ok []) =
      (Except.error (Err.byteCountMismatch 2 0), zeroCacheServo,
       [TransportEvent.readData 1 36 2]) ∧
    (getRegister zeroCacheServo liveReg (Except.ok [7])).1 = Except.ok 7 ∧
    (getRegister zeroCacheServo liveReg (Except.ok [7])).2.1.cache 36 = 7 := by
  have hmix := (getRegister_mismatch_only_non_byte_lengths zeroCacheServo liveReg []
    rfl (Or.inr rfl) (by decide)).1 (by decide) (by decide)
  have hacc := (getRegister_mismatch_only_non_byte_lengths zeroCacheServo liveReg [7]
    rfl (Or.inr rfl) (by decide)).2.1 7 rfl
  exact ⟨hmix, hacc.1, hacc.2.1⟩

/-- C4 counterexample: at the boundary input 180, normalizeAngle returns 180,
which lies outside the half-open interval [-180, 180). -/
theorem normalizeAngle_boundary_180 :
    normalizeAngle 180 = 180 ∧ ¬(normalizeAngle (180 : ℚ) < 180) := by
  have h : normalizeAngle (180 : ℚ) = 180 := normalizeAngle_fixed (by norm_num) le_rfl
  exact ⟨h, by rw [h]; exact lt_irrefl 180⟩

/-- C4 amended: normalizeAngle is idempotent and its result always lies in
the closed interval [-180, 180]. -/
theorem normalizeAngle_idempotent_and_closed_range (d : ℚ) :
    normalizeAngle (normalizeAngle d) = normalizeAngle d ∧
    -180 ≤ normalizeAngle d ∧ normalizeAngle d ≤ 180 :=
  ⟨normalizeAngle_idem d, normalizeAngle_range d⟩

/-- C5: under the exact-arithmetic embedding, the fold performed by
normalizeAngle reaches its result with some finite amount of fuel for every
input. (The Go code computes on float64, where this fails for large finite
inputs; see the claim record.) -/
theorem normalizeAngle_exact_arithmetic_terminates (d : ℚ) :
    ∃ n, normalizeAngleSteps n d = some (normalizeAngle d) := by
  induction d using normalizeAngle.induct with
  | case1 d h ih =>
    obtain ⟨n, hn⟩ := ih
    refine ⟨n + 1, ?_⟩
    rw [normalizeAngle, dif_pos h]
    simp only [normalizeAngleSteps]
    rw [if_pos h]
    exact hn
  | case2 d h1 h2 ih =>
    obtain ⟨n, hn⟩ := ih
    refine ⟨n + 1, ?_⟩
    rw [normalizeAngle, dif_neg h1, dif_pos h2]
    simp only [normalizeAngleSteps]
    rw [if_neg h1, if_pos h2]
    exact hn
  | case3 d h1 h2 =>
    refine ⟨1, ?_⟩
    rw [normalizeAngle, dif_neg h1, dif_neg h2]
    simp only [normalizeAngleSteps]
    rw [if_neg h1, if_neg h2]

/-- C6: SetStatusReturnLevel rejects values outside 0..2 with no transport
call; otherwise it issues exactly one write whose acknowledgement flag is
computed from the new value (not from the current shadow, which is
universally quantified here), updates the shadow only on transport success,
and propagates a transport failure leaving the shadow unchanged. -/
theorem setStatusReturnLevel_spec
    (servo : DynamixelServo) (value : Int) (resp : Except TransportError Unit) :
    (value < 0 ∨ 2 < value →
       SetStatusReturnLevel servo value resp =
         (Except.error (Err.invalidStatusReturnLevel value), servo, [])) ∧
    (0 ≤ value → value ≤ 2 →
       (SetStatusReturnLevel servo value resp).2.2 =
         [TransportEvent.writeData servo.ident (decide (value = 2))
           [addrStatusReturnLevel, low value]] ∧
       (resp = Except.ok () →
          SetStatusReturnLevel servo value resp =
            (Except.ok (), { servo with statusReturnLevel := value },
             [TransportEvent.writeData servo.ident (decide (value = 2))
               [addrStatusReturnLevel, low value]])) ∧
       (∀ e, resp = Except.error e →
          SetStatusReturnLevel servo value resp =
            (Except.error (Err.transport e), servo,
             [TransportEvent.writeData servo.ident (decide (value = 2))
               [addrStatusReturnLevel, low value]]))) := by
  constructor
  · intro h
    simp [SetStatusReturnLevel, h]
  · intro h0 h2
    have hv : ¬(value < 0 ∨ value > 2) := by omega
    refine ⟨?_, ?_, ?_⟩
    · cases resp with
      | ok u => simp [SetStatusReturnLevel, hv]
      | error e => simp [SetStatusReturnLevel, hv]
    · intro hr
      subst hr
      simp [SetStatusReturnLevel, hv]
    · intro e hr
      subst hr
      simp [SetStatusReturnLevel, hv]

/-- C6 witness: level 3 is rejected with no transport call; for a servo whose
shadow is 2, writing level 0 issues a write with acknowledgement flag false
(derived from the new level 0, not the shadow 2), and a transport failure
leaves the servo, hence the shadow, unchanged. -/
theorem setStatusReturnLevel_spec_witness :
    SetStatusReturnLevel zeroCacheServo 3 (Except.ok ()) =
      (Except.error (Err.invalidStatusReturnLevel 3), zeroCacheServo, []) ∧
    (SetStatusReturnLevel zeroCacheServo 0 (Except.ok ())).2.2 =
      [TransportEvent.writeData 1 false [addrStatusReturnLevel, 0]] ∧
    SetStatusReturnLevel zeroCacheServo 0 (Except.error (TransportError.mk 9)) =
      (Except.error (Err.transport (TransportError.mk 9)), zeroCacheServo,
       [TransportEvent.writeData 1 false [addrStatusReturnLevel, 0]]) := by
  refine ⟨?_, ?_, ?_⟩
  · exact (setStatusReturnLevel_spec zeroCacheServo 3 (Except.ok ())).1 (by omega)
  · exact ((setStatusReturnLevel_spec zeroCacheServo 0 (Except.ok ())).2
      (by omega) (by omega)).1
  · exact ((setStatusReturnLevel_spec zeroCacheServo 0
      (Except.error (TransportError.mk 9))).2 (by omega) (by omega)).2.2
      (TransportError.mk 9) rfl

/-- C7: for a non-cacheable register of width 1 or 2, getRegister fails with
the status-level error and no transport call when the shadow is 0, and issues
exactly one read of exactly the register width at the register address when
the shadow is positive. -/
theorem getRegister_noncacheable_gating
    (servo : DynamixelServo) (reg : Register) (resp : Except TransportError (List Nat))
    (hc : reg.cacheable = false) (hw : reg.length = 1 ∨ reg.length = 2) :
    (servo.statusReturnLevel = 0 →
       getRegister servo reg resp = (Except.error Err.statusReturnLevelZero, servo, [])) ∧
    (0 < servo.statusReturnLevel →
       (getRegister servo reg resp).2.2 =
         [TransportEvent.readData servo.ident reg.address reg.length]) := by
  have hlen : ¬(reg.length ≠ 1 ∧ reg.length ≠ 2) := by
    rcases hw with h | h <;> simp [h]
  constructor
  · intro hs
    simp [getRegister, hlen, hc, hs]
  · intro hs
    have hs0 : ¬(servo.statusReturnLevel = 0) := by omega
    cases resp with
    | error e => simp [getRegister, hlen, hc, hs0]
    | ok b =>
      rcases b with _ | ⟨b0, _ | ⟨b1, _ | ⟨b2, rest⟩⟩⟩ <;>
        simp [getRegister, hlen, hc, hs0]

/-- C7 witness: with shadow 0 the read is refused with no transport call;
with shadow 2 exactly one two-byte read at address 36 is issued. -/
theorem getRegister_noncacheable_gating_witness :
    getRegister level0Servo liveReg (Except.ok [1, 2]) =
      (Except.error Err.statusReturnLevelZero, level0Servo, []) ∧
    (getRegister zeroCacheServo liveReg (Except.ok [1, 2])).2.2 =
      [TransportEvent.readData 1 36 2] := by
  constructor
  · exact (getRegister_noncacheable_gating level0Servo liveReg (Except.ok [1, 2])
      rfl (Or.inr rfl)).1 rfl
  · exact (getRegister_noncacheable_gating zeroCacheServo liveReg (Except.ok [1, 2])
      rfl (Or.inr rfl)).2 (by decide)

/-- C8: setRegister raises the read-only error for a read-only register and
a too-low or too-high error for an out-of-range value on a writable
register, in all cases before any transport call and with the state
unchanged. -/
theorem setRegister_local_validation
    (servo : DynamixelServo) (reg : Register) (value : Int)
    (resp : Except TransportError Unit) :
    (reg.access = Access.ro →
       setRegister servo reg value resp = (Except.error Err.readOnlyRegister, servo, [])) ∧
    (reg.access = Access.rw → value < reg.min →
       setRegister servo reg value resp =
         (Except.error (Err.valueTooLow value reg.min), servo, [])) ∧
    (reg.access = Access.rw → reg.min ≤ value → reg.max < value →
       setRegister servo reg value resp =
         (Except.error (Err.valueTooHigh value reg.max), servo, [])) := by
  refine ⟨?_, ?_, ?_⟩
  · intro h
    simp [setRegister, h]
  · intro ha hl
    have h : ¬(reg.access = Access.ro) := by
      rw [ha]
      exact fun hh => Access.noConfusion hh
    simp [setRegister, h, hl]
  · intro ha hge hl
    have h : ¬(reg.access = Access.ro) := by
      rw [ha]
      exact fun hh => Access.noConfusion hh
    simp [setRegister, h, not_lt.mpr hge, hl]

/-- C8 witness: the three rejections at concrete inputs. -/
theorem setRegister_local_validation_witness :
    setRegister zeroCacheServo liveReg 5 (Except.ok ()) =
      (Except.error Err.readOnlyRegister, zeroCacheServo, []) ∧
    setRegister zeroCacheServo byteReg (-1) (Except.ok ()) =
      (Except.error (Err.valueTooLow (-1) 0), zeroCacheServo, []) ∧
    setRegister zeroCacheServo byteReg 2 (Except.ok ()) =
      (Except.error (Err.valueTooHigh 2 1), zeroCacheServo, []) := by
  refine ⟨?_, ?_, ?_⟩
  · exact (setRegister_local_validation zeroCacheServo liveReg 5 (Except.ok ())).1 rfl
  · exact (setRegister_local_validation zeroCacheServo byteReg (-1) (Except.ok ())).2.1
      rfl (by decide)
  · exact (setRegister_local_validation zeroCacheServo byteReg 2 (Except.ok ())).2.2
      rfl (by decide) (by decide)

/-- C9: for a cacheable register of width 1 or 2, getRegister makes no
transport call, leaves the state unchanged, and succeeds with the unsigned
little-endian decoding of the cache bytes at the register address (the
two-byte case stated with the byte bound that makes the bitwise or an
addition). -/
theorem getRegister_cacheable_no_transport
    (servo : DynamixelServo) (reg : Register) (resp : Except TransportError (List Nat))
    (hc : reg.cacheable = true) :
    (reg.length = 1 →
       getRegister servo reg resp = (Except.ok (servo.cache reg.address), servo, [])) ∧
    (reg.length = 2 → servo.cache reg.address < 2 ^ 8 →
       getRegister servo reg resp =
         (Except.ok (servo.cache reg.address + 2 ^ 8 * servo.cache (reg.address + 1)),
          servo, [])) := by
  constructor
  · intro h1
    simp [getRegister, h1, hc]
  · intro h2 hb
    simp [getRegister, h2, hc, lor_shiftLeft_eq_add hb]

/-- A servo state whose cache byte at address i holds i mod 256, used to
evaluate cached decoding on nonzero bytes. -/
def patternCacheServo : DynamixelServo :=
  { ident := 2, zeroAngle := 150, cache := fun i => i % 256, statusReturnLevel := 2 }

/-- C9 witness: the cached reads are served with no transport call even when
the transport, had it been consulted, would have failed. -/
theorem getRegister_cacheable_no_transport_witness :
    getRegister patternCacheServo byteReg (Except.error (TransportError.mk 1)) =
      (Except.ok 25, patternCacheServo, []) ∧
    getRegister patternCacheServo wordReg (Except.error (TransportError.mk 1)) =
      (Except.ok (30 + 2 ^ 8 * 31), patternCacheServo, []) := by
  constructor
  · exact (getRegister_cacheable_no_transport patternCacheServo byteReg
      (Except.error (TransportError.mk 1)) rfl).1 rfl
  · exact (getRegister_cacheable_no_transport patternCacheServo wordReg
      (Except.error (TransportError.mk 1)) rfl).2 rfl (by decide)

/-- C10: NewServo always returns a handle with shadow 2 and zero angle 150
(its type signals no failure to the caller), and when the initial bulk
refresh fails, by transport error or by a wrong byte count, the cache is
left in its zero-initialized state. -/
theorem newServo_defaults_and_discarded_refresh
    (ident : Nat) (resp : Except TransportError (List Nat)) :
    (NewServo ident resp).1.statusReturnLevel = 2 ∧
    (NewServo ident resp).1.zeroAngle = 150 ∧
    (NewServo ident resp).1.ident = ident ∧
    (∀ e, resp = Except.error e → (NewServo ident resp).1.cache = fun _ => 0) ∧
    (∀ b, resp = Except.ok b → b.length ≠ tableSize →
       (NewServo ident resp).1.cache = fun _ => 0) := by
  cases resp with
  | error e =>
    exact ⟨rfl, rfl, rfl, fun _ _ => rfl, fun b hb => by cases hb⟩
  | ok b =>
    by_cases hb : b.length = tableSize
    · refine ⟨?_, ?_, ?_, ?_, ?_⟩
      · simp [NewServo, updateCache, hb]
      · simp [NewServo, updateCache, hb]
      · simp [NewServo, updateCache, hb]
      · intro e he
        cases he
      · intro b2 hb2 hne
        injection hb2 with hbe
        subst hbe
        exact absurd hb hne
    · refine ⟨?_, ?_, ?_, ?_, ?_⟩
      · simp [NewServo, updateCache, hb]
      · simp [NewServo, updateCache, hb]
      · simp [NewServo, updateCache, hb]
      · intro e he
        cases he
      · intro b2 hb2 hne
        simp [NewServo, updateCache, hb]

/-- C10 witness: a failed bulk read (transport error, and separately a wrong
byte count) still yields shadow 2, zero angle 150, and an all-zero cache. -/
theorem newServo_defaults_and_discarded_refresh_witness :
    (NewServo 5 (Except.error (TransportError.mk 3))).1.statusReturnLevel = 2 ∧
    (NewServo 5 (Except.error (TransportError.mk 3))).1.zeroAngle = 150 ∧
    (NewServo 5 (Except.error (TransportError.mk 3))).1.cache = (fun _ => 0) ∧
    (NewServo 6 (Except.ok [1, 2, 3])).1.cache = (fun _ => 0) := by
  have h1 := newServo_defaults_and_discarded_refresh 5 (Except.error (TransportError.mk 3))
  have h2 := newServo_defaults_and_discarded_refresh 6 (Except.ok [1, 2, 3])
  exact ⟨h1.1, h1.2.1, h1.2.2.2.1 (TransportError.mk 3) rfl,
    h2.2.2.2.2 [1, 2, 3] rfl (by decide)⟩

end Dynamixel
